import Mathlib

/-!
Verification development for the GoAdmin-example repository table-descriptor
core: the declarative table/field configuration model, the per-table descriptor
builders (`tables/users.go`, `tables/external.go`, the posts, authors and
profile table files), the generator mapping (`Generators`) and the startup
registration sequence of `main.go`.

The descriptor builders are embedded as pure Lean functions from a request
context to a `TableDescriptor`, mirroring the Go fluent-builder call chains
with one modifier function per Go `Field...` method.  The registry operations
(`register` / `resolve`), the pagination math and the persistence decision are
implemented inside the external admin framework and are therefore modelled
from the specification where indicated.
-/

set_option autoImplicit false

namespace GoAdminExample

/-- Declared database column types used by the table files
(`db.Int`, `db.Varchar`, `db.Tinyint`, `db.Timestamp`, `db.Date`). -/
inductive DbType where
  | int
  | varchar
  | tinyint
  | timestamp
  | date
  deriving DecidableEq, Repr

/-- Form widget kinds used by the table files (`form.Default`, `form.Text`,
`form.Number`, `form.Datetime`, `form.DatetimeRange`, `form.RichText`,
`form.Radio`, `form.SelectSingle`). -/
inductive WidgetType where
  | default
  | text
  | number
  | datetime
  | datetimeRange
  | richtext
  | radio
  | selectSingle
  deriving DecidableEq, Repr

/-- List-view inline edit widget kinds (`editType.Text`, `editType.Switch`,
`editType.Datetime`, `editType.Textarea`). -/
inductive EditType where
  | text
  | switch
  | datetime
  | textarea
  deriving DecidableEq, Repr

/-- Filter operators (`types.FilterOperatorLike`; equality is the default). -/
inductive FilterOperator where
  | eq
  | like
  deriving DecidableEq, Repr

/-- `types.FilterType`: filter operator and the form widget of the filter. -/
structure FilterType where
  operator : FilterOperator := FilterOperator.eq
  formType : WidgetType := WidgetType.text
  deriving DecidableEq, Repr

/-- Tagged value type standing for the dynamic `interface\x7b\x7d` values of the
Go row maps (the rows in this repository hold only ints and strings). -/
inductive GoValue where
  | int (n : Int)
  | str (s : String)
  deriving DecidableEq, Repr

/-- A data row: the `map[string]interface\x7b\x7d` of the Go data functions. -/
abbrev Row := List (String × GoValue)

/-- the Go `v, _ := row[key].(string)`: a missing key or a non-string value
yields the zero value `""` instead of an error. -/
def Row.getStr (row : Row) (key : String) : String :=
  match row.find? (fun kv => kv.1 == key) with
  | some (_, GoValue.str s) => s
  | _ => ""

/-- `types.FieldModel`: the argument of a `FieldDisplay` callback. -/
structure FieldModel where
  id : String
  value : String
  row : Row

/-- `types.PostFieldModel`: the argument of a `FieldPostFilterFn` callback. -/
structure PostFieldModel where
  id : String := ""
  value : List String := []

/-- `form2.Values`: the submitted form values handed to the post hook. -/
abbrev FormValues := List (String × List String)

/-- `types.Join`: a join column descriptor (local key, foreign key, foreign
table). -/
structure Join where
  field : String
  joinField : String
  table : String
  deriving DecidableEq, Repr

/-- An option of a select/radio widget (`types.FieldOptions` entries and
`selection.Options` entries). -/
structure FieldOption where
  value : String := ""
  text : String := ""
  id : String := ""
  selected : Bool := false
  deriving DecidableEq, Repr

/-- `types.FieldDotColor` values used by the profile table. -/
inductive FieldDotColor where
  | danger
  | info
  | primary
  deriving DecidableEq, Repr

/-- The request context handed to every descriptor builder; the only request
datum the builders consult is `ctx.FormValue` (in the country-city cascade
handler of the users table). -/
structure Ctx where
  formValue : String → String

/-- A list-view column specification: one entry of the info panel field
list, accumulated by the `info.AddField(...)` fluent chains. -/
structure ColumnSpec where
  head : String
  field : String
  typeName : DbType
  sortable : Bool := false
  filterable : Bool := false
  filterType : FilterType := {}
  filterOptions : List FieldOption := []
  editable : Bool := false
  editType : Option EditType := none
  editOptions : List FieldOption := []
  hide : Bool := false
  join : Option Join := none
  display : Option (FieldModel → String) := none
  copyable : Bool := false
  boolDisplay : Option (String × String) := none
  carousel : Option ((String → List String) × Nat × Nat) := none
  dot : Option (List (String × FieldDotColor) × FieldDotColor) := none
  progressBar : Bool := false
  downLoadBaseURL : Option String := none
  fileSize : Bool := false

/-- `info.AddField(head, field, typeName)`. -/
def addField (head field : String) (typeName : DbType) : ColumnSpec :=
  { head := head, field := field, typeName := typeName }

/-- `info.AddColumn(head, fn)`: a virtual column keyed by its head, carrying a
display callback and no database field. -/
def addColumn (head : String) (fn : FieldModel → String) : ColumnSpec :=
  { head := head, field := head, typeName := DbType.varchar, display := some fn }

/-- `FieldSortable()`. -/
def ColumnSpec.fieldSortable (c : ColumnSpec) : ColumnSpec :=
  { c with sortable := true }

/-- `FieldFilterable()` with no arguments: default filter type. -/
def ColumnSpec.fieldFilterable (c : ColumnSpec) : ColumnSpec :=
  { c with filterable := true }

/-- `FieldFilterable(types.FilterType\x7b...\x7d)`. -/
def ColumnSpec.fieldFilterableWith (c : ColumnSpec) (t : FilterType) : ColumnSpec :=
  { c with filterable := true, filterType := t }

/-- `FieldFilterOptions(...)`. -/
def ColumnSpec.fieldFilterOptions (c : ColumnSpec) (o : List FieldOption) : ColumnSpec :=
  { c with filterOptions := o }

/-- `FieldEditAble(editType)`. -/
def ColumnSpec.fieldEditAble (c : ColumnSpec) (t : EditType) : ColumnSpec :=
  { c with editable := true, editType := some t }

/-- `FieldEditOptions(...)`. -/
def ColumnSpec.fieldEditOptions (c : ColumnSpec) (o : List FieldOption) : ColumnSpec :=
  { c with editOptions := o }

/-- `FieldHide()`. -/
def ColumnSpec.fieldHide (c : ColumnSpec) : ColumnSpec :=
  { c with hide := true }

/-- `FieldJoin(types.Join\x7b...\x7d)`. -/
def ColumnSpec.fieldJoin (c : ColumnSpec) (j : Join) : ColumnSpec :=
  { c with join := some j }

/-- `FieldDisplay(fn)`. -/
def ColumnSpec.fieldDisplay (c : ColumnSpec) (fn : FieldModel → String) : ColumnSpec :=
  { c with display := some fn }

/-- `FieldCopyable()`. -/
def ColumnSpec.fieldCopyable (c : ColumnSpec) : ColumnSpec :=
  { c with copyable := true }

/-- `FieldBool(trueText, falseText)`. -/
def ColumnSpec.fieldBool (c : ColumnSpec) (t f : String) : ColumnSpec :=
  { c with boolDisplay := some (t, f) }

/-- `FieldCarousel(fn, width, height)`. -/
def ColumnSpec.fieldCarousel (c : ColumnSpec) (fn : String → List String) (w h : Nat) : ColumnSpec :=
  { c with carousel := some (fn, w, h) }

/-- `FieldDot(colors, defaultColor)`. -/
def ColumnSpec.fieldDot (c : ColumnSpec) (colors : List (String × FieldDotColor))
    (dflt : FieldDotColor) : ColumnSpec :=
  { c with dot := some (colors, dflt) }

/-- `FieldProgressBar()`. -/
def ColumnSpec.fieldProgressBar (c : ColumnSpec) : ColumnSpec :=
  { c with progressBar := true }

/-- `FieldDownLoadable(baseURL)`. -/
def ColumnSpec.fieldDownLoadable (c : ColumnSpec) (baseURL : String) : ColumnSpec :=
  { c with downLoadBaseURL := some baseURL }

/-- `FieldFileSize()`. -/
def ColumnSpec.fieldFileSize (c : ColumnSpec) : ColumnSpec :=
  { c with fileSize := true }

/-- The dynamic-options cascade of a form field
(`FieldOnChooseAjax(field, url, handler)`). -/
structure OnChooseAjax where
  field : String
  url : String
  handler : Ctx → Bool × String × List FieldOption

/-- A form-view field specification: one entry of the form panel field list,
accumulated by the `formList.AddField(...)` fluent chains. -/
structure FormFieldSpec where
  head : String
  field : String
  typeName : DbType
  formType : WidgetType
  notAllowAdd : Bool := false
  notAllowEdit : Bool := false
  defaultVal : Option String := none
  options : List FieldOption := []
  postFilterFn : Option (PostFieldModel → String) := none
  optionInitFn : Option (FieldModel → List FieldOption) := none
  onChooseAjax : Option OnChooseAjax := none
  enableFileUpload : Bool := false

/-- `formList.AddField(head, field, typeName, formType)`. -/
def addFormField (head field : String) (typeName : DbType) (formType : WidgetType) : FormFieldSpec :=
  { head := head, field := field, typeName := typeName, formType := formType }

/-- `FieldNotAllowAdd()`. -/
def FormFieldSpec.fieldNotAllowAdd (f : FormFieldSpec) : FormFieldSpec :=
  { f with notAllowAdd := true }

/-- `FieldNotAllowEdit()`. -/
def FormFieldSpec.fieldNotAllowEdit (f : FormFieldSpec) : FormFieldSpec :=
  { f with notAllowEdit := true }

/-- `FieldDefault(v)`. -/
def FormFieldSpec.fieldDefault (f : FormFieldSpec) (v : String) : FormFieldSpec :=
  { f with defaultVal := some v }

/-- `FieldOptions(...)`. -/
def FormFieldSpec.fieldOptions (f : FormFieldSpec) (o : List FieldOption) : FormFieldSpec :=
  { f with options := o }

/-- `FieldPostFilterFn(fn)`. -/
def FormFieldSpec.fieldPostFilterFn (f : FormFieldSpec) (fn : PostFieldModel → String) : FormFieldSpec :=
  { f with postFilterFn := some fn }

/-- `FieldOptionInitFn(fn)`. -/
def FormFieldSpec.fieldOptionInitFn (f : FormFieldSpec) (fn : FieldModel → List FieldOption) : FormFieldSpec :=
  { f with optionInitFn := some fn }

/-- `FieldOnChooseAjax(field, url, handler)`. -/
def FormFieldSpec.fieldOnChooseAjax (f : FormFieldSpec) (field url : String)
    (handler : Ctx → Bool × String × List FieldOption) : FormFieldSpec :=
  { f with onChooseAjax := some { field := field, url := url, handler := handler } }

/-- `FieldEnableFileUpload()`. -/
def FormFieldSpec.fieldEnableFileUpload (f : FormFieldSpec) : FormFieldSpec :=
  { f with enableFileUpload := true }

/-- Row-level / table-level operation descriptors (`action.Jump`,
`action.Ajax`, `action.PopUp`, `action.PopUpWithIframe`). -/
inductive ActionKind where
  | jump (url : String)
  | ajax (url : String) (handler : Ctx → Bool × String × String)
  | popUp (url : String) (title : String) (handler : Ctx → Bool × String × String)
  | popUpWithIframe (url : String) (title : String) (src : String) (width : String) (height : String)

/-- A button added by `AddButton` / `AddActionButton` / `AddColumnButtons`. -/
structure Button where
  title : String
  icon : String := ""
  kind : ActionKind

/-- A batch select box added by `AddSelectBox`. -/
structure SelectBox where
  name : String
  options : List FieldOption
  filterField : String

/-- `table.PrimaryKey`: type and name of the row-identifying column. -/
structure PrimaryKey where
  type : DbType
  name : String
  deriving DecidableEq, Repr

/-- `table.DefaultPrimaryKeyName`, documented in `tables/users.go` as `"id"`. -/
def defaultPrimaryKeyName : String := "id"

/-- The primary key of `table.DefaultConfig()` /
`table.DefaultConfigWithDriver(...)`: integer `"id"`, exactly the value
`tables/users.go` also spells out explicitly. -/
def defaultConfigPrimaryKey : PrimaryKey :=
  { type := DbType.int, name := defaultPrimaryKeyName }

/-- `parameter.Parameters`: the normalized page request handed to a custom
data-source function (page number, page size, sort, filter fields). -/
structure Parameters where
  page : Nat := 1
  pageSize : Nat := 10
  sortField : String := "id"
  sortType : String := "desc"
  fields : List (String × List String) := []

/-- The fully configured table descriptor a builder returns: list-view
columns, form fields, data source, actions, and table-level configuration. -/
structure TableDescriptor where
  table : String
  title : String
  description : String
  driver : String := ""
  connection : String := "default"
  primaryKey : PrimaryKey := defaultConfigPrimaryKey
  canAdd : Bool := true
  editable : Bool := true
  deletable : Bool := true
  exportable : Bool := true
  hideFilterArea : Bool := false
  columns : List ColumnSpec
  formFields : List FormFieldSpec
  getDataFn : Option (Parameters → List Row × Nat) := none
  detailGetDataFn : Option (Parameters → List Row × Nat) := none
  columnButtons : List Button := []
  actionButtons : List Button := []
  buttons : List Button := []
  selectBoxes : List SelectBox := []
  formTabGroups : List (List String) := []
  formTabHeaders : List String := []
  formAjaxText : Option (String × String) := none
  postHook : Option (FormValues → Option String) := none

/-! ### Display callbacks and handlers of the table files -/

/-- Modelled from the spec: HTML rendering is an external-framework
responsibility and explicitly out of scope; the template link component
(`template.Default().Link()...GetContent()`) is modelled as an anchor tag
carrying its URL, tab title and content. -/
def linkContent (url tabTitle content : String) : String :=
  "<a href=" ++ url ++ " title=" ++ tabTitle ++ ">" ++ content ++ "</a>"

/-- Modelled from the spec: HTML rendering is an external-framework
responsibility and explicitly out of scope; the template image component
(`template.Default().Image()...GetContent()`) is modelled as an image tag. -/
def imageContent (src height width : String) : String :=
  "<img src=" ++ src ++ " height=" ++ height ++ " width=" ++ width ++ ">"

/-- the Go `filepath.Base`: last non-empty path component; `"."` for the empty
path, `"/"` when the path consists only of separators. -/
def filepathBase (path : String) : String :=
  if path = "" then "."
  else
    match ((path.splitOn "/").filter (fun c => c != "")).getLast? with
    | some c => c
    | none => "/"

/-- The join-projection key naming convention of the framework, documented in
the posts table file: the joined value of column `field` pulled from table
`table` lands in the row under `table ++ "_goadmin_join_" ++ field`. -/
def joinKey (table field : String) : String :=
  table ++ "_goadmin_join_" ++ field

/-- Posts: display of the `author_id` column as a link to the author detail
page, opened in a new tab titled with the author id. -/
def postsAuthorIdDisplay (value : FieldModel) : String :=
  linkContent ("/admin/info/authors/detail?__goadmin_detail_pk=" ++ value.value)
    ("作者详情(" ++ value.value ++ ")") value.value

/-- Posts: display of the virtual `name` column, combining the joined
`first_name` and `last_name` of the author pulled from the row under the
`\x7btable\x7d_goadmin_join_\x7bfield\x7d` keys; a missing joined row yields
the empty string for each part (`first, _ := row[...].(string)`). -/
def postsAuthorNameDisplay (value : FieldModel) : String :=
  let first := value.row.getStr "authors_goadmin_join_first_name"
  let last := value.row.getStr "authors_goadmin_join_last_name"
  first ++ " " ++ last

/-- Users: display of the `gender` column (`0` male, `1` female). -/
def usersGenderDisplay (model : FieldModel) : String :=
  if model.value = "0" then "男"
  else if model.value = "1" then "女"
  else "未知"

/-- Users: display callback of the virtual personality column. -/
def usersPersonalityDisplay (_ : FieldModel) : String :=
  "帅气"

/-- Users: display of the `avatar` column as a fixed demo image. -/
def usersAvatarDisplay (_ : FieldModel) : String :=
  imageContent "//quick.go-admin.cn/demo/assets/dist/img/gopher_avatar.png" "120" "120"

/-- Users: handler of the column popup button (`action.PopUp("/see/more/example", ...)`). -/
def usersMoreHandler (_ : Ctx) : Bool × String × String :=
  (true, "ok", "<h1>详情</h1><p>balabala</p><p>此功能将在 v1.2.7 版本发布</p>")

/-- Users: handler of the audit row button (`action.Ajax("/admin/audit", ...)`). -/
def usersAuditHandler (_ : Ctx) : Bool × String × String :=
  (true, "成功", "")

/-- Users: handler of the preview row button (`action.PopUp("/admin/preview", ...)`). -/
def usersPreviewHandler (_ : Ctx) : Bool × String × String :=
  (true, "", "<h2>你好世界</h2>")

/-- Users: handler of the table-level popup button (`action.PopUp("/admin/popup", ...)`). -/
def usersPopupHandler (_ : Ctx) : Bool × String × String :=
  (true, "", "<h2>你好世界</h2>")

/-- Users: handler of the table-level ajax button (`action.Ajax("/admin/ajax", ...)`). -/
def usersAjaxHandler (_ : Ctx) : Bool × String × String :=
  (true, "成功", "")

/-- Users: the country-city cascade handler of `FieldOnChooseAjax`; the chosen
country value is read from the request context and mapped to a city option
list (the default branch repeats the China list). -/
def usersChooseCountryHandler (ctx : Ctx) : Bool × String × List FieldOption :=
  let country := ctx.formValue "value"
  let data :=
    match country with
    | "0" =>
      [{ text := "北京", id := "beijing" }, { text := "上海", id := "shangHai" },
       { text := "广州", id := "guangZhou" }, { text := "深圳", id := "shenZhen" }]
    | "1" =>
      [{ text := "洛杉矶", id := "los angeles" }, { text := "华盛顿特区", id := "washington, dc" },
       { text := "纽约", id := "new york" }, { text := "拉斯维加斯", id := "las vegas" }]
    | "2" =>
      [{ text := "伦敦", id := "london" }, { text := "剑桥", id := "cambridge" },
       { text := "曼彻斯特", id := "manchester" }, { text := "利物浦", id := "liverpool" }]
    | "3" =>
      [{ text := "温哥华", id := "vancouver" }, { text := "多伦多", id := "toronto" }]
    | _ =>
      [{ text := "北京", id := "beijing" }, { text := "上海", id := "shangHai" },
       { text := "广州", id := "guangZhou" }, { text := "深圳", id := "shenZhen" }]
  (true, "ok", data)

/-- Users: option initializer of the `city` form field: a single option made
from the current value, preselected. -/
def usersCityOptionInitFn (val : FieldModel) : List FieldOption :=
  [{ value := val.value, text := val.value, selected := true }]

/-- Users: post-submit transform of the `role` form field.  The Go function
prints the submitted value for debugging (an I/O side effect outside the
descriptor model) and returns the empty string — the do-not-persist
sentinel — for every submitted value. -/
def usersRolePostFilterFn (_ : PostFieldModel) : String :=
  ""

/-- Users: the form post hook; the Go hook prints the submitted values and
returns `nil` (no error). -/
def usersPostHook (_ : FormValues) : Option String :=
  none

/-- Profile: the carousel preprocessing of the `photos` column
(`strings.Split(value, ",")`). -/
def profilePhotosCarouselFn (value : String) : List String :=
  value.splitOn ","

/-- Profile: display of the `finish_state` column as a step name. -/
def profileFinishStateDisplay (value : FieldModel) : String :=
  if value.value = "0" then "步骤1"
  else if value.value = "1" then "步骤2"
  else if value.value = "2" then "步骤3"
  else "未知"

/-- Profile: display of the `resume` column as the bare file name
(`filepath.Base(value.Value)`). -/
def profileResumeDisplay (value : FieldModel) : String :=
  filepathBase value.value

/-- Authors: display of the virtual `name` column combining the row own
`first_name` and `last_name` values. -/
def authorsNameDisplay (value : FieldModel) : String :=
  let first := value.row.getStr "first_name"
  let last := value.row.getStr "last_name"
  first ++ " " ++ last

/-! ### External table data functions (`tables/external.go`) -/

/-- The mock external rows returned by the list data function: four rows with
ids 10, 11, 12, 13. -/
def externalRows : List Row :=
  [[("id", GoValue.int 10), ("title", GoValue.str "这是一个标题")],
   [("id", GoValue.int 11), ("title", GoValue.str "这是一个标题2")],
   [("id", GoValue.int 12), ("title", GoValue.str "这是一个标题3")],
   [("id", GoValue.int 13), ("title", GoValue.str "这是一个标题4")]]

/-- The custom list data function set by `SetGetDataFn` on the
info panel of the external table: it ignores the request parameters and returns the fixed
rows together with the total record count 10 used for pagination. -/
def externalGetDataFn (_ : Parameters) : List Row × Nat :=
  (externalRows, 10)

/-- The custom detail data function set by `SetGetDataFn` on the
detail panel of the external table: one fixed record with count 1, regardless of the
request parameters. -/
def externalDetailGetDataFn (_ : Parameters) : List Row × Nat :=
  ([[("id", GoValue.int 10), ("title", GoValue.str "这是一个标题")]], 1)

/-! ### Descriptor builders, one per table file -/

/-- `GetPostsTable`: the posts table descriptor — sqlite driver, default
primary key, join columns pulling the author first and last name from the
`authors` table, a rich-text content form field, and ajax form submission. -/
def GetPostsTable (_ : Ctx) : TableDescriptor :=
  { table := "posts", title := "文章", description := "文章",
    driver := "sqlite",
    primaryKey := defaultConfigPrimaryKey,
    columns :=
      [addField "编号" "id" DbType.int |>.fieldSortable,
       addField "标题" "title" DbType.varchar,
       addField "作者ID" "author_id" DbType.int |>.fieldDisplay postsAuthorIdDisplay,
       addField "作者姓名" "name" DbType.varchar |>.fieldDisplay postsAuthorNameDisplay,
       addField "作者名" "first_name" DbType.varchar
         |>.fieldJoin { field := "author_id", joinField := "id", table := "authors" }
         |>.fieldHide,
       addField "作者姓" "last_name" DbType.varchar
         |>.fieldJoin { field := "author_id", joinField := "id", table := "authors" }
         |>.fieldHide,
       addField "描述" "description" DbType.varchar,
       addField "内容" "content" DbType.varchar |>.fieldEditAble EditType.textarea,
       addField "日期" "date" DbType.varchar],
    formFields :=
      [addFormField "编号" "id" DbType.int WidgetType.default
         |>.fieldNotAllowEdit |>.fieldNotAllowAdd,
       addFormField "标题" "title" DbType.varchar WidgetType.text,
       addFormField "描述" "description" DbType.varchar WidgetType.text,
       addFormField "内容" "content" DbType.varchar WidgetType.richtext
         |>.fieldEnableFileUpload,
       addFormField "日期" "date" DbType.varchar WidgetType.datetime],
    formAjaxText := some ("提交成功", "提交失败") }

/-- `GetUserTable`: the users table descriptor — explicit `table.Config` with
sqlite driver, integer `"id"` primary key, editable and filterable columns,
row/table action buttons, a batch gender select box, tabbed form groups, a
cascading country-city select, the `role` field with its do-not-persist post
filter, and a form post hook. -/
def GetUserTable (_ : Ctx) : TableDescriptor :=
  { table := "users", title := "用户", description := "用户",
    driver := "sqlite", connection := "default",
    canAdd := true, editable := true, deletable := true, exportable := true,
    primaryKey := { type := DbType.int, name := defaultPrimaryKeyName },
    columns :=
      [addField "编号" "id" DbType.int |>.fieldSortable,
       addField "姓名" "name" DbType.varchar
         |>.fieldEditAble EditType.text
         |>.fieldFilterableWith { operator := FilterOperator.like },
       addField "性别" "gender" DbType.tinyint
         |>.fieldDisplay usersGenderDisplay
         |>.fieldEditAble EditType.switch
         |>.fieldEditOptions [{ value := "0", text := "👨" }, { value := "1", text := "👩" }]
         |>.fieldFilterableWith { formType := WidgetType.selectSingle }
         |>.fieldFilterOptions [{ value := "0", text := "男" }, { value := "1", text := "女" }],
       addColumn "个性" usersPersonalityDisplay,
       addField "电话" "phone" DbType.varchar |>.fieldFilterable,
       addField "城市" "city" DbType.varchar |>.fieldFilterable,
       addField "头像" "avatar" DbType.varchar |>.fieldDisplay usersAvatarDisplay,
       addField "创建时间" "created_at" DbType.timestamp
         |>.fieldFilterableWith { formType := WidgetType.datetimeRange },
       addField "更新时间" "updated_at" DbType.timestamp
         |>.fieldEditAble EditType.datetime],
    formFields :=
      [addFormField "编号" "id" DbType.int WidgetType.default
         |>.fieldNotAllowEdit |>.fieldNotAllowAdd,
       addFormField "IP" "ip" DbType.varchar WidgetType.text,
       addFormField "姓名" "name" DbType.varchar WidgetType.text,
       addFormField "性别" "gender" DbType.tinyint WidgetType.radio
         |>.fieldOptions [{ text := "男", value := "0" }, { text := "女", value := "1" }]
         |>.fieldDefault "0",
       addFormField "电话" "phone" DbType.varchar WidgetType.text,
       addFormField "国家" "country" DbType.tinyint WidgetType.selectSingle
         |>.fieldOptions
           [{ text := "中国", value := "0" }, { text := "美国", value := "1" },
            { text := "英国", value := "2" }, { text := "加拿大", value := "3" }]
         |>.fieldDefault "0"
         |>.fieldOnChooseAjax "city" "/choose/country" usersChooseCountryHandler,
       addFormField "城市" "city" DbType.varchar WidgetType.selectSingle
         |>.fieldOptionInitFn usersCityOptionInitFn,
       addFormField "自定义字段" "role" DbType.varchar WidgetType.text
         |>.fieldPostFilterFn usersRolePostFilterFn,
       addFormField "更新时间" "updated_at" DbType.timestamp WidgetType.default
         |>.fieldNotAllowAdd,
       addFormField "创建时间" "created_at" DbType.timestamp WidgetType.default
         |>.fieldNotAllowAdd],
    columnButtons :=
      [{ title := "查看更多", icon := "info",
         kind := ActionKind.popUp "/see/more/example" "详情" usersMoreHandler }],
    actionButtons :=
      [{ title := "谷歌", kind := ActionKind.jump "https://google.com" },
       { title := "审核", kind := ActionKind.ajax "/admin/audit" usersAuditHandler },
       { title := "预览", kind := ActionKind.popUp "/admin/preview" "预览" usersPreviewHandler }],
    buttons :=
      [{ title := "谷歌", icon := "google", kind := ActionKind.jump "https://google.com" },
       { title := "弹窗", icon := "terminal",
         kind := ActionKind.popUp "/admin/popup" "弹窗示例" usersPopupHandler },
       { title := "iframe", icon := "tv",
         kind := ActionKind.popUpWithIframe "/admin/iframe" "Iframe 示例"
           "/admin/info/profile/new" "900px" "480px" },
       { title := "ajax", icon := "android",
         kind := ActionKind.ajax "/admin/ajax" usersAjaxHandler }],
    selectBoxes :=
      [{ name := "gender",
         options := [{ value := "0", text := "男" }, { value := "1", text := "女" }],
         filterField := "gender" }],
    formTabGroups :=
      [["id", "ip", "name", "gender", "country", "city"],
       ["phone", "role", "created_at", "updated_at"]],
    formTabHeaders := ["档案1", "档案2"],
    postHook := some usersPostHook }

/-- `GetAuthorsTable`: the authors table descriptor — sqlite driver, hidden
first/last name columns combined into a virtual display name, and a popup
iframe button listing the author posts. -/
def GetAuthorsTable (_ : Ctx) : TableDescriptor :=
  { table := "authors", title := "作者", description := "作者",
    driver := "sqlite",
    primaryKey := defaultConfigPrimaryKey,
    columns :=
      [addField "编号" "id" DbType.int |>.fieldSortable,
       addField "名" "first_name" DbType.varchar |>.fieldHide,
       addField "姓" "last_name" DbType.varchar |>.fieldHide,
       addField "姓名" "name" DbType.varchar |>.fieldDisplay authorsNameDisplay,
       addField "邮箱" "email" DbType.varchar,
       addField "出生日期" "birthdate" DbType.date,
       addField "添加时间" "added" DbType.timestamp],
    formFields :=
      [addFormField "编号" "id" DbType.int WidgetType.default
         |>.fieldNotAllowEdit |>.fieldNotAllowAdd,
       addFormField "名" "first_name" DbType.varchar WidgetType.text,
       addFormField "姓" "last_name" DbType.varchar WidgetType.text,
       addFormField "邮箱" "email" DbType.varchar WidgetType.text,
       addFormField "出生日期" "birthdate" DbType.date WidgetType.text,
       addFormField "添加时间" "added" DbType.timestamp WidgetType.text],
    buttons :=
      [{ title := "文章", icon := "tv",
         kind := ActionKind.popUpWithIframe "/authors/list" "文章"
           "/admin/info/posts" "900px" "560px" }] }

/-- `GetProfileTable`: the profile table descriptor — sqlite driver, hidden
filter area, and columns demonstrating copyable, boolean, carousel, dot,
progress-bar, downloadable and file-size field renderings. -/
def GetProfileTable (_ : Ctx) : TableDescriptor :=
  { table := "profile", title := "用户档案", description := "用户档案",
    driver := "sqlite",
    primaryKey := defaultConfigPrimaryKey,
    hideFilterArea := true,
    columns :=
      [addField "编号" "id" DbType.int |>.fieldFilterable,
       addField "UUID" "uuid" DbType.varchar |>.fieldCopyable,
       addField "通过" "pass" DbType.tinyint |>.fieldBool "1" "0",
       addField "照片" "photos" DbType.varchar
         |>.fieldCarousel profilePhotosCarouselFn 150 100,
       addField "完成状态" "finish_state" DbType.tinyint
         |>.fieldDisplay profileFinishStateDisplay
         |>.fieldDot
           [("步骤1", FieldDotColor.danger), ("步骤2", FieldDotColor.info),
            ("步骤3", FieldDotColor.primary)]
           FieldDotColor.danger,
       addField "进度" "finish_progress" DbType.int |>.fieldProgressBar,
       addField "简历" "resume" DbType.varchar
         |>.fieldDisplay profileResumeDisplay
         |>.fieldDownLoadable "http://yinyanghu.github.io/files/",
       addField "文件大小" "resume_size" DbType.int |>.fieldFileSize],
    formFields :=
      [addFormField "UUID" "uuid" DbType.varchar WidgetType.text,
       addFormField "照片" "photos" DbType.varchar WidgetType.text,
       addFormField "简历" "resume" DbType.varchar WidgetType.text,
       addFormField "文件大小" "resume_size" DbType.int WidgetType.number,
       addFormField "完成状态" "finish_state" DbType.tinyint WidgetType.number,
       addFormField "进度" "finish_progress" DbType.int WidgetType.number,
       addFormField "通过" "pass" DbType.tinyint WidgetType.number]  }

/-- `GetExternalTable`: the external table descriptor — no database driver
(`table.DefaultConfig()`, documented in the file as specifying none), default
primary key, two columns, and custom list/detail data functions in place of a
relational source. -/
def GetExternalTable (_ : Ctx) : TableDescriptor :=
  { table := "external", title := "外部数据", description := "外部数据",
    driver := "",
    primaryKey := defaultConfigPrimaryKey,
    columns :=
      [addField "编号" "id" DbType.int |>.fieldSortable,
       addField "标题" "title" DbType.varchar],
    formFields :=
      [addFormField "编号" "id" DbType.int WidgetType.default
         |>.fieldNotAllowEdit |>.fieldNotAllowAdd,
       addFormField "标题" "title" DbType.varchar WidgetType.text],
    getDataFn := some externalGetDataFn,
    detailGetDataFn := some externalDetailGetDataFn }

/-! ### Registry (`Generators` and the startup sequence of `main.go`) -/

/-- `table.Generator`: a builder producing a table descriptor for a request
context. -/
abbrev Generator := Ctx → TableDescriptor

/-- The registry: an ordered name-to-builder mapping.  (The Go registry is a
map; iteration order is irrelevant to every property proved here.) -/
abbrev Registry := List (String × Generator)

/-- The registry error kinds of the spec error-handling design. -/
inductive RegistryError where
  | duplicateRegistration (name : String)
  | unknownDescriptor (name : String)
  deriving DecidableEq, Repr

/-- Modelled from the spec: the registry insert operation lives in the
external admin engine (`AddGenerators` / `AddGenerator` in `main.go` are
calls into it); per the spec it fails fast with `DuplicateRegistration` when
the name is already present and otherwise appends the mapping. -/
def register (r : Registry) (name : String) (g : Generator) : Except RegistryError Registry :=
  if r.any (fun e => e.1 == name) then
    Except.error (RegistryError.duplicateRegistration name)
  else
    Except.ok (r ++ [(name, g)])

/-- Modelled from the spec: `resolve(name, ctx)` invokes the named builder on
the request context; an unknown name fails closed with `UnknownDescriptor`,
never yielding a partial or default descriptor. -/
def resolve (r : Registry) (name : String) (ctx : Ctx) : Except RegistryError TableDescriptor :=
  match r.find? (fun e => e.1 == name) with
  | some e => Except.ok (e.2 ctx)
  | none => Except.error (RegistryError.unknownDescriptor name)

/-- Registers a list of mappings in order, stopping at the first failure. -/
def registerAll (r : Registry) : List (String × Generator) → Except RegistryError Registry
  | [] => Except.ok r
  | e :: rest =>
    match register r e.1 e.2 with
    | Except.ok r2 => registerAll r2 rest
    | Except.error err => Except.error err

/-- The `Generators` mapping of the tables package: posts, users, authors and
profile. -/
def Generators : List (String × Generator) :=
  [("posts", GetPostsTable),
   ("users", GetUserTable),
   ("authors", GetAuthorsTable),
   ("profile", GetProfileTable)]

/-- The startup registration sequence of `startServer` in `main.go`:
`AddGenerators(tables.Generators)` followed by
`AddGenerator("external", tables.GetExternalTable)`. -/
def startupRegistrations : List (String × Generator) :=
  Generators ++ [("external", GetExternalTable)]

/-- The registry contents after the startup registration sequence. -/
def startupRegistry : Registry :=
  startupRegistrations

/-! ### Spec-modelled collaborator contracts -/

/-- Modelled from the spec: the pagination math of the external rendering
layer — `pageCount = ceil(totalCount / pageSize)`. -/
def pageCount (totalCount pageSize : Nat) : Nat :=
  (totalCount + pageSize - 1) / pageSize

/-- A custom data-source invocation that may fail (covering both an error
return and a panic of the Go function). -/
abbrev FallibleDataFn := Parameters → Except String (List Row × Nat)

/-- Modelled from the spec: resolve-time row retrieval around a custom data
source — a failure is recovered locally as zero rows and a zero total count
instead of propagating into the page-render path. -/
def fetchRows (fn : FallibleDataFn) (p : Parameters) : List Row × Nat :=
  match fn p with
  | Except.ok res => res
  | Except.error _ => ([], 0)

/-- Modelled from the spec: the persistence decision for a submitted form
field — a post-submit transform returning the empty-string sentinel signals
do-not-persist; a field without a transform is persisted as submitted. -/
def persistsField (f : FormFieldSpec) (v : PostFieldModel) : Bool :=
  match f.postFilterFn with
  | some t => t v != ""
  | none => true

/-- Checks that no string occurs twice in the list. -/
def allDistinct : List String → Bool
  | [] => true
  | x :: xs => !(xs.contains x) && allDistinct xs

/-- A request context carrying no form values, used to instantiate universally
quantified statements. -/
def ctxDefault : Ctx :=
  { formValue := fun _ => "" }

/-- A page request with all parameters at their defaults. -/
def defaultParameters : Parameters :=
  {}

/-- A custom data source that fails (the Go function panics) exactly on the
page request with page 2 and page size 20, and otherwise returns the external
external-table data. -/
def panickingSource : FallibleDataFn :=
  fun p =>
    if p.page == 2 && p.pageSize == 20 then Except.error "panic: 外部数据源崩溃"
    else Except.ok (externalGetDataFn p)

/-- A custom data source returning a three-row page while reporting a total
count of 10. -/
def threeRowSource (_ : Parameters) : List Row × Nat :=
  ([[("id", GoValue.int 1)], [("id", GoValue.int 2)], [("id", GoValue.int 3)]], 10)

/-! ### Theorems -/

/-- A successful `resolve` yields the descriptor built by one of the
registered builders. -/
theorem resolve_ok_mem (r : Registry) (name : String) (ctx : Ctx) (d : TableDescriptor)
    (h : resolve r name ctx = Except.ok d) :
    ∃ e ∈ r, d = e.2 ctx := by
  unfold resolve at h
  cases hf : r.find? (fun e => e.1 == name) with
  | none => rw [hf] at h; exact absurd h (by simp)
  | some e =>
    rw [hf] at h
    exact ⟨e, List.mem_of_find?_eq_some hf, (Except.ok.inj h).symm⟩

/-- C1: for every registered name (posts, users, authors, profile, external),
the descriptor produced by that builder of that name for any request context
declares a primary key whose field name appears in the column list of the descriptor
list exactly once. -/
theorem registered_primary_key_once_in_columns (name : String) (ctx : Ctx)
    (d : TableDescriptor) (h : resolve startupRegistry name ctx = Except.ok d) :
    d.columns.countP (fun c => c.field == d.primaryKey.name) = 1 := by
  obtain ⟨e, he, rfl⟩ := resolve_ok_mem _ _ _ _ h
  simp only [startupRegistry, startupRegistrations, Generators, List.mem_append,
    List.mem_cons, List.not_mem_nil, or_false] at he
  rcases he with (h1 | h1 | h1 | h1) | h1 <;> subst h1 <;> rfl

/-- C1 witness: the users descriptor resolved from the startup registry. -/
theorem registered_primary_key_once_in_columns_witness :
    (GetUserTable ctxDefault).columns.countP
      (fun c => c.field == (GetUserTable ctxDefault).primaryKey.name) = 1 :=
  registered_primary_key_once_in_columns "users" ctxDefault (GetUserTable ctxDefault) rfl

/-- C4: for every registered descriptor and every request context, no two
columns of the produced descriptor share the same field name, and no two form
fields of the produced descriptor share the same field name. -/
theorem registered_descriptor_field_names_distinct (name : String) (ctx : Ctx)
    (d : TableDescriptor) (h : resolve startupRegistry name ctx = Except.ok d) :
    allDistinct (d.columns.map (fun c => c.field)) = true ∧
      allDistinct (d.formFields.map (fun f => f.field)) = true := by
  obtain ⟨e, he, rfl⟩ := resolve_ok_mem _ _ _ _ h
  simp only [startupRegistry, startupRegistrations, Generators, List.mem_append,
    List.mem_cons, List.not_mem_nil, or_false] at he
  rcases he with (h1 | h1 | h1 | h1) | h1 <;> subst h1 <;> exact ⟨rfl, rfl⟩

/-- C4 witness: the posts descriptor resolved from the startup registry. -/
theorem registered_descriptor_field_names_distinct_witness :
    allDistinct ((GetPostsTable ctxDefault).columns.map (fun c => c.field)) = true ∧
      allDistinct ((GetPostsTable ctxDefault).formFields.map (fun f => f.field)) = true :=
  registered_descriptor_field_names_distinct "posts" ctxDefault (GetPostsTable ctxDefault) rfl

/-- C9: for every registered descriptor and every request context, every
column carrying a join descriptor is not marked as independently editable in
the list view. -/
theorem registered_join_columns_not_editable (name : String) (ctx : Ctx)
    (d : TableDescriptor) (h : resolve startupRegistry name ctx = Except.ok d) :
    d.columns.all (fun c => !(c.join.isSome && c.editable)) = true := by
  obtain ⟨e, he, rfl⟩ := resolve_ok_mem _ _ _ _ h
  simp only [startupRegistry, startupRegistrations, Generators, List.mem_append,
    List.mem_cons, List.not_mem_nil, or_false] at he
  rcases he with (h1 | h1 | h1 | h1) | h1 <;> subst h1 <;> rfl

/-- C9 witness: the posts descriptor (the only one with join columns)
resolved from the startup registry. -/
theorem registered_join_columns_not_editable_witness :
    (GetPostsTable ctxDefault).columns.all (fun c => !(c.join.isSome && c.editable)) = true :=
  registered_join_columns_not_editable "posts" ctxDefault (GetPostsTable ctxDefault) rfl

/-- C2 counterexample: the projected author name is NOT read from keys of the
form `table ++ "_joined_" ++ field` — a row populated only under those keys
projects to empty parts, while the same values under the actual framework
`table ++ "_goadmin_join_" ++ field` keys are projected; and the actual key
differs from the claimed one. -/
theorem join_projection_key_convention_counterexample :
    postsAuthorNameDisplay
        { id := "1", value := "3",
          row := [("authors_joined_first_name", GoValue.str "Ada"),
                  ("authors_joined_last_name", GoValue.str "Lovelace")] } = " " ∧
      postsAuthorNameDisplay
        { id := "1", value := "3",
          row := [("authors_goadmin_join_first_name", GoValue.str "Ada"),
                  ("authors_goadmin_join_last_name", GoValue.str "Lovelace")] } = "Ada Lovelace" ∧
      joinKey "authors" "first_name" ≠ "authors" ++ "_joined_" ++ "first_name" := by
  refine ⟨rfl, rfl, ?_⟩
  decide

/-- C2 (amended): both posts join columns carry the spec
\x7bfield: author_id, joinField: id, table: authors\x7d; resolving a row
populates the projected fields under the key naming convention
`\x7btable\x7d_goadmin_join_\x7bfield\x7d`; and when no matching joined row
exists, each projected value is the empty string rather than an error. -/
theorem join_projection_uses_goadmin_join_keys (ctx : Ctx) (row : Row) (i v : String) :
    (GetPostsTable ctx).columns.filterMap (fun c => c.join) =
        [{ field := "author_id", joinField := "id", table := "authors" },
         { field := "author_id", joinField := "id", table := "authors" }] ∧
      postsAuthorNameDisplay { id := i, value := v, row := row } =
        row.getStr (joinKey "authors" "first_name") ++ " " ++
          row.getStr (joinKey "authors" "last_name") ∧
      postsAuthorNameDisplay { id := i, value := v, row := [] } = " " :=
  ⟨rfl, rfl, rfl⟩

/-- C3: the page count is computed as ceil(totalCount / pageSize) from the
total count a custom data source reports, not from the length of the returned
page: a source returning a three-row page with total count 10 at page size 3
yields page count 4, and the external list data function of the external table function (four rows,
total count 10) also yields page count 4 at page size 3. -/
theorem custom_source_page_count (p : Parameters) (src : Parameters → List Row × Nat)
    (_hrows : (src p).1.length = 3) (hcount : (src p).2 = 10) :
    pageCount (src p).2 3 = 4 ∧
      (externalGetDataFn p).1.length = 4 ∧
      (externalGetDataFn p).2 = 10 ∧
      pageCount (externalGetDataFn p).2 3 = 4 := by
  refine ⟨?_, rfl, rfl, ?_⟩
  · rw [hcount]
    decide
  · show pageCount 10 3 = 4
    decide

/-- C3 witness: the three-row source with total count 10 at the default page
request. -/
theorem custom_source_page_count_witness :
    pageCount (threeRowSource defaultParameters).2 3 = 4 ∧
      (externalGetDataFn defaultParameters).1.length = 4 ∧
      (externalGetDataFn defaultParameters).2 = 10 ∧
      pageCount (externalGetDataFn defaultParameters).2 3 = 4 :=
  custom_source_page_count defaultParameters threeRowSource rfl rfl

/-- C5: registering a builder under a name already present in the registry
fails with `DuplicateRegistration`; in particular, after a successful
`register(r, "users", A)`, a second `register(_, "users", B)` fails and never
silently overwrites the first. -/
theorem duplicate_registration_fails (r r2 : Registry) (A B : Generator)
    (h : register r "users" A = Except.ok r2) :
    register r2 "users" B = Except.error (RegistryError.duplicateRegistration "users") := by
  unfold register at h ⊢
  split at h
  · exact absurd h (by simp)
  · cases (Except.ok.inj h).symm
    simp

/-- C5 witness: registering `"users"` into the empty registry and then
registering `"users"` again. -/
theorem duplicate_registration_fails_witness :
    register [("users", GetUserTable)] "users" GetUserTable =
      Except.error (RegistryError.duplicateRegistration "users") :=
  duplicate_registration_fails [] [("users", GetUserTable)] GetUserTable GetUserTable rfl

/-- C6: whenever a custom data-source function fails on a page request, the
resolve-time row retrieval yields zero rows and a zero total count
instead of an unhandled failure. -/
theorem failing_data_source_yields_empty (fn : FallibleDataFn) (p : Parameters)
    (e : String) (h : fn p = Except.error e) :
    fetchRows fn p = ([], 0) := by
  unfold fetchRows
  rw [h]

/-- C6 witness: a source that fails exactly on the page request with page 2
and page size 20, evaluated at that request. -/
theorem failing_data_source_yields_empty_witness :
    fetchRows panickingSource { page := 2, pageSize := 20 } = ([], 0) :=
  failing_data_source_yields_empty panickingSource { page := 2, pageSize := 20 }
    "panic: 外部数据源崩溃" rfl

/-- C7: looking up a name absent from the registry fails closed with a
not-found error and never yields a partial or default descriptor; the names
registered at startup are exactly posts, users, authors, profile, external,
pairwise distinct, and the startup registration sequence therefore
succeeds. -/
theorem unknown_name_fails_closed (name : String) (ctx : Ctx)
    (h : name ∉ startupRegistry.map Prod.fst) :
    resolve startupRegistry name ctx =
        Except.error (RegistryError.unknownDescriptor name) ∧
      startupRegistry.map Prod.fst = ["posts", "users", "authors", "profile", "external"] ∧
      (startupRegistry.map Prod.fst).Nodup ∧
      registerAll [] startupRegistrations = Except.ok startupRegistry := by
  refine ⟨?_, rfl, by decide, rfl⟩
  unfold resolve
  rw [List.find?_eq_none.mpr]
  intro x hx
  simp only [beq_iff_eq]
  intro hxn
  exact h (hxn ▸ List.mem_map_of_mem Prod.fst hx)

/-- C7 witness: looking up the unregistered name `"widgets"`. -/
theorem unknown_name_fails_closed_witness :
    resolve startupRegistry "widgets" ctxDefault =
        Except.error (RegistryError.unknownDescriptor "widgets") ∧
      startupRegistry.map Prod.fst = ["posts", "users", "authors", "profile", "external"] ∧
      (startupRegistry.map Prod.fst).Nodup ∧
      registerAll [] startupRegistrations = Except.ok startupRegistry :=
  unknown_name_fails_closed "widgets" ctxDefault (by decide)

/-- C8: the users-table `role` form field is the unique field of that name,
its post-submit transform returns the empty string for every submitted value,
and under the persistence rule — the return value of the transform value, not its
absence, controls persistence — the field is never persisted. -/
theorem role_field_never_persisted (ctx : Ctx) (v : PostFieldModel) :
    usersRolePostFilterFn v = "" ∧
      ((GetUserTable ctx).formFields.filter (fun f => f.field == "role")).map
          (fun f => f.postFilterFn) = [some usersRolePostFilterFn] ∧
      ((GetUserTable ctx).formFields.filter (fun f => f.field == "role")).all
          (fun f => !(persistsField f v)) = true :=
  ⟨rfl, rfl, rfl⟩

/-- C10: the external external-table custom list data function returns the same
fixed four rows with ids 10, 11, 12, 13 and total count 10 for every pair of
page requests, and its detail data function always returns exactly one row
with count 1; the request parameters have no effect on either result. -/
theorem external_data_functions_constant (ctx : Ctx) (p q : Parameters) :
    (GetExternalTable ctx).getDataFn = some externalGetDataFn ∧
      (GetExternalTable ctx).detailGetDataFn = some externalDetailGetDataFn ∧
      externalGetDataFn p = externalGetDataFn q ∧
      externalGetDataFn p = (externalRows, 10) ∧
      (externalGetDataFn p).1.map (fun row => row.find? (fun kv => kv.1 == "id")) =
        [some ("id", GoValue.int 10), some ("id", GoValue.int 11),
         some ("id", GoValue.int 12), some ("id", GoValue.int 13)] ∧
      externalDetailGetDataFn p = externalDetailGetDataFn q ∧
      (externalDetailGetDataFn p).1.length = 1 ∧
      (externalDetailGetDataFn p).2 = 1 :=
  ⟨rfl, rfl, rfl, rfl, rfl, rfl, rfl, rfl⟩

end GoAdminExample
